import Mathlib

/-!
Shallow embedding of the `bugzilla-data` repository: the `BugzillaData`
class of `bz_data.py` (construction, record fetching with optional login,
frequency-table computation, title/product derivation, chart generation)
and the CLI driver `scripts/make_plot.py`.

Python-specific behaviours are modelled explicitly:
* a `dict` comprehension is an insertion-ordered association list where
  re-assigning an existing key keeps its position;
* `sorted(..., reverse=True)` is a stable descending sort;
* `dict.fromkeys` de-duplicates keeping the first occurrence;
* exceptions and `sys.exit` are explicit result constructors;
* the remote `bugzilla` client is an oracle supplied as a parameter.
-/

namespace BZData

/-- Field values carried by bug records (Python strings). -/
abbrev Val := String

/-- A bug record, as `bz_data.py` uses it: an attribute bag; `attrs f`
models `getattr(bug, f)`. -/
structure Bug where
  attrs : String → Val

/-- First-occurrence de-duplication of `l`, skipping elements already in
`seen`: the keys a Python dict gains while iterating `l` when it already
holds the keys `seen`. -/
def pyDedupFrom {α : Type} [DecidableEq α] (seen : List α) : List α → List α
  | [] => []
  | a :: l => if a ∈ seen then pyDedupFrom seen l else a :: pyDedupFrom (a :: seen) l

/-- First-occurrence de-duplication: the key order of a Python dict built
by iterating a list (`dict.fromkeys`, and the key set of the counting dict
comprehension in `get_plot_data`). -/
def pyDedup {α : Type} [DecidableEq α] (l : List α) : List α := pyDedupFrom [] l

/-- Assignment `d[k] = v` on an insertion-ordered Python dict modelled as
an association list: an existing key keeps its position, a new key is
appended. -/
def dictAssign {α β : Type} [DecidableEq α] (d : List (α × β)) (k : α) (v : β) :
    List (α × β) :=
  if d.any (fun p => p.1 = k) then
    d.map (fun p => if p.1 = k then (k, v) else p)
  else
    d ++ [(k, v)]

/-- The dict comprehension of `get_plot_data` (bz_data.py:104-106):
`{attr: bz_data.count(attr) for attr in bz_data}`. -/
def bzCounts (data : List Val) : List (Val × Nat) :=
  data.foldl (fun d attr => dictAssign d attr (data.count attr)) []

/-- One insertion step of the stable descending sort on the count
component: the new pair goes in front of the first existing pair whose
count is not larger. -/
def insertByCountDesc (p : Val × Nat) : List (Val × Nat) → List (Val × Nat)
  | [] => [p]
  | q :: qs => if q.2 ≤ p.2 then p :: q :: qs else q :: insertByCountDesc p qs

/-- Stable sort by count, descending: the model of
`sorted(bz_counts.items(), key=lambda item: item[1], reverse=True)`
(bz_data.py:107).  Python's sort is stable and `reverse=True` keeps ties
in their original order; a stable sort result is unique, so stable
insertion sort is a faithful model. -/
def pySortByCountDesc : List (Val × Nat) → List (Val × Nat)
  | [] => []
  | p :: ps => insertByCountDesc p (pySortByCountDesc ps)

/-- `BugzillaData.get_plot_data` (bz_data.py:102-109).  `self.bugs` is
passed explicitly as `bugs`; `self.plot_style` as `plot_style`.  Returns
`(xvals, sorted_counts)` with `xvals = range(len(sorted_counts))`. -/
def get_plot_data (plot_style : String) (bugs : List Bug) :
    List Nat × List (Val × Nat) :=
  let bz_data := bugs.map (fun bug => bug.attrs plot_style)
  let bz_counts := bzCounts bz_data
  let sorted_counts := pySortByCountDesc bz_counts
  (List.range sorted_counts.length, sorted_counts)

/-- Index of the first occurrence of `v` in `data` (length of `data` when
absent): the reference notion of first-appearance order. -/
def firstIdx : List Val → Val → Nat
  | [], _ => 0
  | a :: l, v => if a = v then 0 else firstIdx l v + 1

/-- Python exceptions distinguished by the embedding. -/
inductive PyErr where
  | bugzillaError (msg : String)
  | typeError
  | indexError
  | keyError
  | attributeError
deriving DecidableEq

/-- A query mapping from the query file: search-field name to filter
values.  The `""` default of `.get(key, "")` iterates like an empty
sequence, so it is modelled by the empty value list. -/
abbrev Query := List (String × List String)

/-- `query.get(key, "")` on a query mapping. -/
def qget (q : Query) (k : String) : List String :=
  match q.find? (fun p => p.1 = k) with
  | some p => p.2
  | none => []

/-- One element of the top-level query-file list, `{ query: {...} }`;
`query = none` models a missing `"query"` key. -/
structure Entry where
  query : Option Query
deriving DecidableEq

/-- Parsed content of the query file: a YAML list, or `null` (what
`yaml.load` returns for an empty file). -/
inductive QueryYaml where
  | list (entries : List Entry)
  | null
deriving DecidableEq

/-- The `login_info` mapping of the credential file; either field may be
missing (`.get` returns `None`). -/
structure LoginInfo where
  username : Option String
  password : Option String
deriving DecidableEq

/-- The fields of a constructed `BugzillaData` instance used by the
embedded operations, plus the `cached_property` slot backing `bugs`. -/
structure BZState where
  query_file : String
  plot_style : String
  login_required : Bool
  query : Option Query
  queries : Option (List Query)
  creds : Option LoginInfo
  bugsCache : Option (List Bug)

/-- The comprehension `[query["query"] for query in queries]`
(bz_data.py:31-33): `none` when some entry lacks the `"query"` key
(Python raises `KeyError` at the first such entry). -/
def extractQueries : List Entry → Option (List Query)
  | [] => some []
  | e :: t =>
    match e.query with
    | none => none
    | some q =>
      match extractQueries t with
      | none => none
      | some qs => some (q :: qs)

/-- Outcome of `BugzillaData.__init__`: a constructed instance, a
`sys.exit`, or an uncaught Python exception. -/
inductive InitResult where
  | ok (bd : BZState)
  | exit (code : Nat) (msg : String)
  | raise (e : PyErr)

/-- `BugzillaData.__init__` (bz_data.py:18-45).  File reads are supplied
as already-attempted results: `.error ()` is an `IOError` on opening; a
readable credential file is represented by the `login_info` value of its
first entry.  The `login` argument is `kwargs.get("login")`.  An
unreadable query file prints a diagnostic naming the path and exits with
status 1; `null` content raises `TypeError` at `len(queries)`; an empty
list raises `IndexError` at `queries[0]`; in multi-query mode an entry
without a `"query"` key raises `KeyError`.  Only an `IOError` on the
credential file is caught (leaving `creds = None`). -/
def initBugzillaData (query_file plot_style : String) (login : Bool)
    (queryFileContent : Except Unit QueryYaml)
    (credFileContent : Except Unit (Option LoginInfo)) : InitResult :=
  match queryFileContent with
  | .error _ =>
    .exit 1 ("IOError: Query file not present at " ++ query_file ++ ", exiting...")
  | .ok .null => .raise .typeError
  | .ok (.list entries) =>
    let creds : Option LoginInfo :=
      match credFileContent with
      | .ok li => li
      | .error _ => none
    if entries.length > 1 then
      match extractQueries entries with
      | none => .raise .keyError
      | some qs =>
        .ok { query_file := query_file, plot_style := plot_style,
              login_required := login, query := none, queries := some qs,
              creds := creds, bugsCache := none }
    else
      match entries with
      | [] => .raise .indexError
      | e :: _ =>
        .ok { query_file := query_file, plot_style := plot_style,
              login_required := login, query := e.query, queries := none,
              creds := creds, bugsCache := none }

/-- Observable calls made while fetching records: client calls and the
`print(query)` announcements.  `queryCall none` is `bzapi.query(None)`. -/
inductive Event where
  | loginCall
  | logoutCall
  | announce (q : Query)
  | queryCall (q : Option Query)
deriving DecidableEq

/-- Oracle for the external `bugzilla` client: the outcomes of
`bzapi.login` and `bzapi.query`. -/
structure BzApi where
  login : Option String → Option String → Except PyErr Unit
  query : Option Query → Except PyErr (List Bug)

/-- The multi-query loop of `bugs` (bz_data.py:66-68, 73-75): announce
each query, run it, extend the accumulated records; a raising query
aborts the loop with its exception. -/
def runQueriesLoop (api : BzApi) : List Query → List Event × Except PyErr (List Bug)
  | [] => ([], .ok [])
  | q :: qs =>
    match api.query (some q) with
    | .error e => ([.announce q, .queryCall (some q)], .error e)
    | .ok bs =>
      match runQueriesLoop api qs with
      | (tr, .ok rest) =>
        (.announce q :: .queryCall (some q) :: tr, .ok (bs ++ rest))
      | (tr, .error e) =>
        (.announce q :: .queryCall (some q) :: tr, .error e)

/-- The query-execution body of `bugs` (bz_data.py:65-70, 72-77):
`if self.queries:` is Python truthiness, so an absent (or empty) list
falls through to the single `bzapi.query(self.query)` call. -/
def runQueryBody (api : BzApi) (bd : BZState) : List Event × Except PyErr (List Bug) :=
  match bd.queries with
  | some (q :: qs) => runQueriesLoop api (q :: qs)
  | _ =>
    match api.query bd.query with
    | .ok bs => ([.queryCall bd.query], .ok bs)
    | .error e => ([.queryCall bd.query], .error e)

/-- The underlying computation of the `bugs` property (bz_data.py:60-78)
with the `logged_into_bugzilla` context manager (bz_data.py:47-58)
inlined.  Generator semantics of the `@contextmanager`: entering raises
`BugzillaError` when no credentials are present, otherwise `login` runs
inside the `try`.  When the `with` body raises, the exception is thrown
back into the generator at the `yield`: `except BugzillaError: raise`
re-raises it and any other exception propagates unchanged, and in both
cases the `else: self.bzapi.logout()` branch is skipped — `logout` runs
only when the body completes normally. -/
def computeBugs (api : BzApi) (bd : BZState) : List Event × Except PyErr (List Bug) :=
  if bd.login_required then
    match bd.creds with
    | none => ([], .error (.bugzillaError "No creds available to log into Bugzilla"))
    | some c =>
      match api.login c.username c.password with
      | .error e => ([.loginCall], .error e)
      | .ok _ =>
        match runQueryBody api bd with
        | (tr, .ok bs) => (.loginCall :: tr ++ [.logoutCall], .ok bs)
        | (tr, .error e) => (.loginCall :: tr, .error e)
  else
    runQueryBody api bd

/-- One access to the `bugs` `cached_property` (bz_data.py:60-61): a
cached value is returned without touching the client; otherwise the
computation runs and a successful result is stored on the instance. -/
def bugs (api : BzApi) (bd : BZState) :
    BZState × List Event × Except PyErr (List Bug) :=
  match bd.bugsCache with
  | some bs => (bd, [], .ok bs)
  | none =>
    match computeBugs api bd with
    | (tr, .ok bs) => ({ bd with bugsCache := some bs }, tr, .ok bs)
    | (tr, .error e) => (bd, tr, .error e)

/-- `true` exactly on `Except.ok`. -/
def isOkE {ε α : Type} : Except ε α → Bool
  | .ok _ => true
  | .error _ => false

/-- Python `str.capitalize`: first character upper-cased, the rest
lower-cased. -/
def pyCapitalize (s : String) : String :=
  match s.data with
  | [] => ""
  | c :: cs => String.mk (c.toUpper :: cs.map Char.toLower)

/-- The de-duplicated status list embedded in `title` (bz_data.py:83-87):
in multi-query mode the per-query status values are concatenated and
de-duplicated keeping first occurrences; in single-query mode the single
value is used as is.  `self.query` being `None` makes `.get` raise
`AttributeError`. -/
def titleStatus (bd : BZState) : Except PyErr (List String) :=
  match bd.queries with
  | some (q :: qs) =>
    .ok (pyDedup (((q :: qs).map fun query => qget query "status").flatten))
  | _ =>
    match bd.query with
    | none => .error .attributeError
    | some q => .ok (qget q "status")

/-- `BugzillaData.title` (bz_data.py:80-91), filling the template
`"{status} BZ\x27s sorted by {plot_style}"`. -/
def title (bd : BZState) : Except PyErr String :=
  match titleStatus bd with
  | .error e => .error e
  | .ok status =>
    .ok (String.intercalate ", " status ++ " BZ\x27s sorted by " ++
      pyCapitalize bd.plot_style)

/-- `BugzillaData.product` (bz_data.py:93-100): the `", "`-joined,
first-occurrence-de-duplicated product values. -/
def product (bd : BZState) : Except PyErr String :=
  match bd.queries with
  | some (q :: qs) =>
    .ok (String.intercalate ", "
      (pyDedup (((q :: qs).map fun query => qget query "product").flatten)))
  | _ =>
    match bd.query with
    | none => .error .attributeError
    | some q => .ok (String.intercalate ", " (qget q "product"))

/-- The chart produced by `generate_plot` (bz_data.py:111-124): bar
positions and heights, tick labels, the fixed y-label, the derived title,
the product label as an anchored text box only when non-empty
(`if self.product:`), and the target file name when saving. -/
structure Chart where
  xvals : List Nat
  heights : List Nat
  xtickLabels : List Val
  ylabel : String
  title : String
  anchored_text : Option String
  savedTo : Option String

/-- `BugzillaData.generate_plot` (bz_data.py:111-124), with the records
of `self.bugs` passed explicitly. -/
def generate_plot (bd : BZState) (records : List Bug) (save : Bool) :
    Except PyErr Chart :=
  match title bd with
  | .error e => .error e
  | .ok t =>
    match product bd with
    | .error e => .error e
    | .ok p =>
      let pd := get_plot_data bd.plot_style records
      .ok { xvals := pd.1,
            heights := pd.2.map fun s => s.2,
            xtickLabels := pd.2.map fun s => s.1,
            ylabel := "BZ Count",
            title := t,
            anchored_text := if p = "" then none else some p,
            savedTo := if save then some (bd.plot_style ++ ".png") else none }

/-- Observable top-level actions of `main` in `scripts/make_plot.py`:
printing `generate_output()`, running `generate_report()`, and running
`generate_plot(save=...)`. -/
inductive MainAction where
  | printOutput
  | generateReport
  | generatePlot (save : Bool)
deriving DecidableEq

/-- The post-construction action sequence of `main`
(scripts/make_plot.py:51-65): `--noplot` forces `--output`; the textual
output is printed when output is set, the report generated when set, and
the plot generated only when `--noplot` is absent. -/
def mainActions (output noplot report save : Bool) : List MainAction :=
  let output := if noplot then true else output
  (if output then [MainAction.printOutput] else []) ++
    (if report then [MainAction.generateReport] else []) ++
      (if noplot then [] else [MainAction.generatePlot save])

/-- A client whose login succeeds and whose every query raises. -/
def failingQueryApi : BzApi where
  login := fun _ _ => .ok ()
  query := fun _ => .error (.bugzillaError "query failed")

/-- A client whose login succeeds and whose every query returns one fixed
record. -/
def okApi : BzApi where
  login := fun _ _ => .ok ()
  query := fun _ => .ok [Bug.mk fun _ => "component-a"]

/-- A login-required instance holding credentials and a single query. -/
def loggedInState : BZState where
  query_file := "conf/query.yaml"
  plot_style := "component"
  login_required := true
  query := some []
  queries := none
  creds := some { username := some "user", password := some "pass" }
  bugsCache := none

/-- An anonymous single-query instance with an empty cache. -/
def anonState : BZState where
  query_file := "conf/query.yaml"
  plot_style := "component"
  login_required := false
  query := some []
  queries := none
  creds := none
  bugsCache := none

/-- Multi-query instance whose status filters are `["NEW", "ASSIGNED"]`
and `["NEW"]`. -/
def statusQueriesState : BZState :=
  { anonState with
    queries := some [[("status", ["NEW", "ASSIGNED"])], [("status", ["NEW"])]],
    query := none }

/-- Single-query instance with product filter `["Widget"]`. -/
def productQueryState : BZState :=
  { anonState with query := some [("product", ["Widget"])] }

/-- Single-query instance whose query has no product key. -/
def noProductQueryState : BZState :=
  { anonState with query := some [] }

section DedupLemmas

variable {α : Type} [DecidableEq α]

theorem mem_pyDedupFrom {seen l : List α} {x : α} :
    x ∈ pyDedupFrom seen l ↔ x ∈ l ∧ x ∉ seen := by
  induction l generalizing seen with
  | nil => simp [pyDedupFrom]
  | cons a t ih =>
    by_cases ha : a ∈ seen <;> by_cases hxa : x = a
    · subst hxa; simp [pyDedupFrom, if_pos ha, ih, ha]
    · simp [pyDedupFrom, if_pos ha, ih, hxa]
    · subst hxa; simp [pyDedupFrom, if_neg ha, ih, ha]
    · simp [pyDedupFrom, if_neg ha, ih, hxa]

theorem mem_pyDedup {l : List α} {x : α} : x ∈ pyDedup l ↔ x ∈ l := by
  simp [pyDedup, mem_pyDedupFrom]

theorem nodup_pyDedupFrom (seen l : List α) : (pyDedupFrom seen l).Nodup := by
  induction l generalizing seen with
  | nil => simp [pyDedupFrom]
  | cons a t ih =>
    by_cases ha : a ∈ seen
    · simpa [pyDedupFrom, if_pos ha] using ih seen
    · rw [pyDedupFrom, if_neg ha]
      refine List.nodup_cons.mpr ⟨?_, ih (a :: seen)⟩
      intro hmem
      exact (mem_pyDedupFrom.mp hmem).2 (List.mem_cons_self a seen)

theorem nodup_pyDedup (l : List α) : (pyDedup l).Nodup := nodup_pyDedupFrom [] l

theorem pyDedupFrom_congr {s₁ s₂ l : List α} (h : ∀ x, x ∈ s₁ ↔ x ∈ s₂) :
    pyDedupFrom s₁ l = pyDedupFrom s₂ l := by
  induction l generalizing s₁ s₂ with
  | nil => rfl
  | cons a t ih =>
    by_cases ha : a ∈ s₁
    · rw [pyDedupFrom, pyDedupFrom, if_pos ha, if_pos ((h a).mp ha), ih h]
    · rw [pyDedupFrom, pyDedupFrom, if_neg ha, if_neg (fun hs => ha ((h a).mpr hs))]
      exact congrArg _ (ih (fun x => by simp [List.mem_cons, h x]))

theorem pyDedup_perm_dedup (l : List α) : (pyDedup l).Perm l.dedup := by
  rw [(List.perm_ext_iff_of_nodup (nodup_pyDedup l) l.nodup_dedup)]
  intro a
  rw [mem_pyDedup, List.mem_dedup]

end DedupLemmas

section CountsLemmas

/-- Effect of one dict assignment on a dict whose value at each key `a` is
`f a`: an existing key leaves the dict unchanged, a new key is appended. -/
theorem dictAssign_map_of_mem {ks : List Val} {f : Val → Nat} {k : Val}
    (hk : k ∈ ks) :
    dictAssign (ks.map fun a => (a, f a)) k (f k) = ks.map fun a => (a, f a) := by
  have hc : (ks.map fun a => (a, f a)).any (fun p => p.1 = k) = true := by
    simp only [List.any_eq_true]
    exact ⟨(k, f k), List.mem_map.mpr ⟨k, hk, rfl⟩, by simp⟩
  rw [dictAssign, if_pos hc, List.map_map]
  refine List.map_congr_left (fun a _ => ?_)
  by_cases hak : a = k <;> simp [Function.comp, hak]

theorem dictAssign_map_of_not_mem {ks : List Val} {f : Val → Nat} {k : Val}
    (hk : k ∉ ks) :
    dictAssign (ks.map fun a => (a, f a)) k (f k) =
      (ks ++ [k]).map fun a => (a, f a) := by
  have hc : ((ks.map fun a => (a, f a)).any (fun p => p.1 = k)) ≠ true := by
    simp only [ne_eq, List.any_eq_true, List.mem_map, not_exists, not_and]
    rintro p ⟨a, ha, rfl⟩ hak
    exact hk ((by simpa using hak : a = k) ▸ ha)
  rw [dictAssign, if_neg hc]
  simp

/-- The counting fold of `get_plot_data`, started from a dict with keys
`ks` all valued by `f`, appends exactly the unseen first occurrences. -/
theorem dictFold_eq (f : Val → Nat) (l ks : List Val) :
    List.foldl (fun d attr => dictAssign d attr (f attr))
        (ks.map fun a => (a, f a)) l =
      (ks ++ pyDedupFrom ks l).map fun a => (a, f a) := by
  induction l generalizing ks with
  | nil => simp [pyDedupFrom]
  | cons a t ih =>
    by_cases ha : a ∈ ks
    · rw [List.foldl_cons, @dictAssign_map_of_mem ks f a ha, ih ks]
      simp only [pyDedupFrom, if_pos ha]
    · rw [List.foldl_cons, @dictAssign_map_of_not_mem ks f a ha, ih (ks ++ [a])]
      simp only [pyDedupFrom, if_neg ha]
      rw [@pyDedupFrom_congr Val _ (ks ++ [a]) (a :: ks) t
        (fun x => by simp [or_comm])]
      simp

theorem bzCounts_eq (data : List Val) :
    bzCounts data = (pyDedup data).map fun a => (a, data.count a) := by
  simpa [pyDedup] using dictFold_eq (fun a => data.count a) data []

end CountsLemmas

section SortLemmas

theorem insertByCountDesc_perm (p : Val × Nat) (l : List (Val × Nat)) :
    (insertByCountDesc p l).Perm (p :: l) := by
  induction l with
  | nil => exact List.Perm.refl _
  | cons q qs ih =>
    by_cases h : q.2 ≤ p.2
    · rw [insertByCountDesc, if_pos h]
    · rw [insertByCountDesc, if_neg h]
      exact (ih.cons q).trans (List.Perm.swap p q qs)

theorem pySortByCountDesc_perm (l : List (Val × Nat)) :
    (pySortByCountDesc l).Perm l := by
  induction l with
  | nil => exact List.Perm.refl _
  | cons p ps ih =>
    exact (insertByCountDesc_perm p (pySortByCountDesc ps)).trans (ih.cons p)

theorem insertByCountDesc_pairwise {S : Val × Nat → Val × Nat → Prop}
    {p : Val × Nat} {l : List (Val × Nat)}
    (hl : l.Pairwise fun x y => y.2 < x.2 ∨ (x.2 = y.2 ∧ S x y))
    (hp : ∀ q ∈ l, S p q) :
    (insertByCountDesc p l).Pairwise fun x y => y.2 < x.2 ∨ (x.2 = y.2 ∧ S x y) := by
  induction l with
  | nil => simp [insertByCountDesc]
  | cons q qs ih =>
    rcases List.pairwise_cons.mp hl with ⟨hq, hqs⟩
    by_cases h : q.2 ≤ p.2
    · rw [insertByCountDesc, if_pos h]
      refine List.pairwise_cons.mpr ⟨?_, hl⟩
      intro r hr
      rcases List.mem_cons.mp hr with rfl | hr'
      · rcases lt_or_eq_of_le h with hlt | heq
        · exact Or.inl hlt
        · exact Or.inr ⟨heq.symm, hp r (List.mem_cons_self r qs)⟩
      · have hr2 : r.2 ≤ q.2 := by
          rcases hq r hr' with hlt | ⟨heq, _⟩
          · exact le_of_lt hlt
          · exact le_of_eq heq.symm
        rcases lt_or_eq_of_le (le_trans hr2 h) with hlt | heq
        · exact Or.inl hlt
        · exact Or.inr ⟨heq.symm, hp r (List.mem_cons_of_mem q hr')⟩
    · rw [insertByCountDesc, if_neg h]
      refine List.pairwise_cons.mpr
        ⟨?_, ih hqs (fun r hr => hp r (List.mem_cons_of_mem q hr))⟩
      intro r hr
      rcases List.mem_cons.mp ((insertByCountDesc_perm p qs).mem_iff.mp hr) with rfl | hr'
      · exact Or.inl (Nat.lt_of_not_le h)
      · exact hq r hr'

theorem pySortByCountDesc_pairwise {S : Val × Nat → Val × Nat → Prop}
    {l : List (Val × Nat)} (hl : l.Pairwise S) :
    (pySortByCountDesc l).Pairwise fun x y => y.2 < x.2 ∨ (x.2 = y.2 ∧ S x y) := by
  induction l with
  | nil => simp [pySortByCountDesc]
  | cons p ps ih =>
    rcases List.pairwise_cons.mp hl with ⟨hp, hps⟩
    rw [pySortByCountDesc]
    exact insertByCountDesc_pairwise (ih hps)
      (fun q hq => hp q ((pySortByCountDesc_perm ps).mem_iff.mp hq))

/-- Keys of the counting dict are pairwise ordered by first occurrence. -/
theorem pyDedupFrom_pairwise_firstIdx (seen l : List Val) :
    (pyDedupFrom seen l).Pairwise fun a b => firstIdx l a < firstIdx l b := by
  induction l generalizing seen with
  | nil => simp [pyDedupFrom]
  | cons a t ih =>
    by_cases ha : a ∈ seen
    · rw [pyDedupFrom, if_pos ha]
      refine (ih seen).imp_of_mem ?_
      intro x y hx hy hxy
      have hxa : a ≠ x := fun h =>
        (mem_pyDedupFrom.mp hx).2 (h ▸ ha)
      have hya : a ≠ y := fun h =>
        (mem_pyDedupFrom.mp hy).2 (h ▸ ha)
      simpa [firstIdx, hxa, hya] using Nat.succ_lt_succ hxy
    · rw [pyDedupFrom, if_neg ha]
      refine List.pairwise_cons.mpr ⟨?_, ?_⟩
      · intro b hb
        have hba : a ≠ b := fun h =>
          (mem_pyDedupFrom.mp hb).2 (h ▸ List.mem_cons_self a seen)
        simp [firstIdx, hba]
      · refine (ih (a :: seen)).imp_of_mem ?_
        intro x y hx hy hxy
        have hxa : a ≠ x := fun h =>
          (mem_pyDedupFrom.mp hx).2 (h ▸ List.mem_cons_self a seen)
        have hya : a ≠ y := fun h =>
          (mem_pyDedupFrom.mp hy).2 (h ▸ List.mem_cons_self a seen)
        simpa [firstIdx, hxa, hya] using Nat.succ_lt_succ hxy

theorem bzCounts_pairwise_firstIdx (data : List Val) :
    (bzCounts data).Pairwise fun p q => firstIdx data p.1 < firstIdx data q.1 := by
  rw [bzCounts_eq]
  exact List.pairwise_map.mpr (by simpa [pyDedup] using pyDedupFrom_pairwise_firstIdx [] data)

end SortLemmas

section FrequencyTable

/-- C1: for every list of fetched bug records and every chosen aggregation
field, the frequency table returned by `get_plot_data` has counts summing
to the number of records, its entries range over exactly the distinct
observed field values, and the accompanying x-axis positions are exactly
the range `[0, number of distinct values)`. -/
theorem get_plot_data_frequency_table (plot_style : String) (bugs : List Bug) :
    (((get_plot_data plot_style bugs).2.map fun p => p.2).sum = bugs.length) ∧
    (∀ v, v ∈ (get_plot_data plot_style bugs).2.map (fun p => p.1) ↔
      v ∈ bugs.map fun bug => bug.attrs plot_style) ∧
    (get_plot_data plot_style bugs).1 =
      List.range (bugs.map fun bug => bug.attrs plot_style).toFinset.card := by
  set data : List Val := bugs.map fun bug => bug.attrs plot_style with hdata
  have hres : get_plot_data plot_style bugs =
      (List.range (pySortByCountDesc (bzCounts data)).length,
        pySortByCountDesc (bzCounts data)) := rfl
  have hperm : (pySortByCountDesc (bzCounts data)).Perm (bzCounts data) :=
    pySortByCountDesc_perm _
  have hkeys : (bzCounts data).map (fun p => p.1) = pyDedup data := by
    rw [bzCounts_eq, List.map_map]
    show List.map (fun a => a) (pyDedup data) = pyDedup data
    exact List.map_id' _
  have hlen : (pySortByCountDesc (bzCounts data)).length = data.toFinset.card := by
    rw [hperm.length_eq, bzCounts_eq, List.length_map]
    rw [← List.toFinset_card_of_nodup (nodup_pyDedup data)]
    congr 1
    ext x
    simp [List.mem_toFinset, mem_pyDedup]
  refine ⟨?_, ?_, ?_⟩
  · rw [hres]
    rw [(hperm.map fun p => p.2).sum_eq, bzCounts_eq, List.map_map]
    have : ((fun p => p.2) ∘ fun a => (a, data.count a)) = fun a => data.count a := rfl
    rw [this]
    rw [((pyDedup_perm_dedup data).map fun a => data.count a).sum_eq]
    rw [List.sum_map_count_dedup_eq_length data, hdata, List.length_map]
  · intro v
    rw [hres]
    rw [(hperm.map fun p => p.1).mem_iff, hkeys, mem_pyDedup]
  · rw [hres, hlen]

/-- C2: the frequency table returned by `get_plot_data` is sorted by count
in descending order, and entries with equal counts appear in the order of
the first occurrences of their values among the extracted field values. -/
theorem get_plot_data_sorted_stable (plot_style : String) (bugs : List Bug) :
    (get_plot_data plot_style bugs).2.Pairwise fun p q =>
      q.2 ≤ p.2 ∧ (p.2 = q.2 →
        firstIdx (bugs.map fun bug => bug.attrs plot_style) p.1 <
          firstIdx (bugs.map fun bug => bug.attrs plot_style) q.1) := by
  set data : List Val := bugs.map fun bug => bug.attrs plot_style with hdata
  have hres : (get_plot_data plot_style bugs).2 = pySortByCountDesc (bzCounts data) := rfl
  rw [hres]
  refine (pySortByCountDesc_pairwise (bzCounts_pairwise_firstIdx data)).imp ?_
  rintro p q (hlt | ⟨heq, hS⟩)
  · exact ⟨le_of_lt hlt, fun h => absurd (h ▸ hlt) (lt_irrefl _)⟩
  · exact ⟨le_of_eq heq.symm, fun _ => hS⟩

end FrequencyTable

section FetchTheorems

theorem runQueriesLoop_count_logout (api : BzApi) (qs : List Query) :
    (runQueriesLoop api qs).1.count Event.logoutCall = 0 := by
  induction qs with
  | nil => rfl
  | cons q t ih =>
    rw [runQueriesLoop]
    cases hq : api.query (some q) with
    | error e => simp [List.count_cons]
    | ok bs =>
      rcases hrest : runQueriesLoop api t with ⟨tr, res⟩
      have htr : tr.count Event.logoutCall = 0 := by
        simpa [hrest] using ih
      cases res <;> simp [List.count_cons, htr]

theorem runQueryBody_count_logout (api : BzApi) (bd : BZState) :
    (runQueryBody api bd).1.count Event.logoutCall = 0 := by
  rw [runQueryBody]
  rcases bd.queries with _ | ⟨_ | ⟨q, qs⟩⟩
  · cases api.query bd.query <;> simp [List.count_cons]
  · cases api.query bd.query <;> simp [List.count_cons]
  · exact runQueriesLoop_count_logout api (q :: qs)

/-- C3 counterexample: login required, credentials present, login
succeeds, and the query raises — the fetch exits with the error and the
trace contains no `logout`, so the session is not released on this exit
even though it had been acquired. -/
theorem computeBugs_query_error_skips_logout :
    computeBugs failingQueryApi loggedInState =
      ([Event.loginCall, Event.queryCall (some [])],
        .error (.bugzillaError "query failed")) ∧
    (computeBugs failingQueryApi loggedInState).1.count Event.logoutCall = 0 :=
  ⟨rfl, rfl⟩

/-- C3 amended: `logout` is called exactly once when login is required
and the fetch completes successfully, and zero times on every other exit
— in particular not at all when query execution raises. -/
theorem computeBugs_logout_count (api : BzApi) (bd : BZState) :
    (computeBugs api bd).1.count Event.logoutCall =
      if bd.login_required && isOkE (computeBugs api bd).2 then 1 else 0 := by
  cases hl : bd.login_required with
  | false =>
    simp only [computeBugs, hl, Bool.false_and, if_neg Bool.false_ne_true,
      Bool.false_eq_true, if_false]
    exact runQueryBody_count_logout api bd
  | true =>
    cases hc : bd.creds with
    | none => simp [computeBugs, hl, hc, isOkE]
    | some c =>
      cases hlog : api.login c.username c.password with
      | error e => simp [computeBugs, hl, hc, hlog, isOkE, List.count_cons]
      | ok u =>
        rcases hrb : runQueryBody api bd with ⟨tr, res⟩
        have htr : tr.count Event.logoutCall = 0 := by
          simpa [hrb] using runQueryBody_count_logout api bd
        cases res with
        | ok bs =>
          simp [computeBugs, hl, hc, hlog, hrb, isOkE, List.count_cons,
            List.count_append, htr]
        | error e =>
          simp [computeBugs, hl, hc, hlog, hrb, isOkE, List.count_cons, htr]

/-- C4: an access to `bugs` that succeeded (from cache or by fetching)
leaves the instance in a state where the next access makes no client
calls at all — no query is re-executed — and returns the same record
list. -/
theorem bugs_memoized (api : BzApi) (bd bd' : BZState) (tr : List Event)
    (bs : List Bug) (h : bugs api bd = (bd', tr, .ok bs)) :
    bugs api bd' = (bd', [], .ok bs) := by
  cases hc : bd.bugsCache with
  | some bs0 =>
    rw [bugs, hc] at h
    simp only [Prod.mk.injEq, Except.ok.injEq] at h
    obtain ⟨h1, h2, h3⟩ := h
    rw [← h1, bugs, hc, h3]
  | none =>
    rw [bugs, hc] at h
    rcases hcb : computeBugs api bd with ⟨tr0, res⟩
    rw [hcb] at h
    cases res with
    | ok bs0 =>
      simp only [Prod.mk.injEq, Except.ok.injEq] at h
      obtain ⟨h1, h2, h3⟩ := h
      rw [← h1]
      simp [bugs, h3]
    | error e => simp at h

/-- C4 witness: a concrete first access fetches one record and caches it;
the theorem applied to that access shows the second access is silent and
returns the cached list. -/
theorem bugs_memoized_witness :
    bugs okApi
        { anonState with bugsCache := some [Bug.mk fun _ => "component-a"] } =
      ({ anonState with bugsCache := some [Bug.mk fun _ => "component-a"] },
        [], .ok [Bug.mk fun _ => "component-a"]) :=
  bugs_memoized okApi anonState
    { anonState with bugsCache := some [Bug.mk fun _ => "component-a"] }
    [Event.queryCall (some [])] [Bug.mk fun _ => "component-a"] rfl

end FetchTheorems

section ConstructionTheorems

/-- C5: an unreadable query file makes construction exit with status 1
and the diagnostic naming the missing path, whatever the login flag and
credential file hold; no instance state is produced. -/
theorem init_exit_on_missing_query_file (query_file plot_style : String)
    (login : Bool) (credFileContent : Except Unit (Option LoginInfo)) :
    initBugzillaData query_file plot_style login (.error ()) credFileContent =
      .exit 1 ("IOError: Query file not present at " ++ query_file ++
        ", exiting...") := rfl

/-- C10: a query file that opens but parses to the empty list makes the
constructor raise `IndexError` (at `queries[0]`), and one that parses to
`null` (an empty file) makes it raise `TypeError` (at `len(queries)`) —
an uncaught exception, never the status-1 exit reserved for unreadable
files. -/
theorem init_raises_on_degenerate_content (query_file plot_style : String)
    (login : Bool) (cc : Except Unit (Option LoginInfo)) :
    initBugzillaData query_file plot_style login (.ok (.list [])) cc =
        .raise .indexError ∧
      initBugzillaData query_file plot_style login (.ok .null) cc =
        .raise .typeError ∧
      (∀ msg, (InitResult.raise .indexError) ≠ .exit 1 msg) ∧
      (∀ msg, (InitResult.raise .typeError) ≠ .exit 1 msg) := by
  refine ⟨rfl, rfl, ?_, ?_⟩ <;> intro msg h <;> exact InitResult.noConfusion h

theorem exists_extractQueries {entries : List Entry}
    (h : ∀ e ∈ entries, e.query.isSome) :
    ∃ qs, extractQueries entries = some qs := by
  induction entries with
  | nil => exact ⟨[], rfl⟩
  | cons e t ih =>
    obtain ⟨q, hq⟩ := Option.isSome_iff_exists.mp (h e (List.mem_cons_self e t))
    obtain ⟨qs, hqs⟩ := ih (fun x hx => h x (List.mem_cons_of_mem e hx))
    exact ⟨q :: qs, by rw [extractQueries, hq, hqs]⟩

/-- C6: with an unreadable credential file, construction still succeeds
(for a well-formed query file) and records `creds = none`; when login is
also required, fetching records raises the no-credentials
`BugzillaError` with an empty event trace — before any client call. -/
theorem init_missing_credentials_fetch_aborts (query_file plot_style : String)
    (entries : List Entry) (api : BzApi)
    (hne : entries ≠ [])
    (hq : ∀ e ∈ entries, e.query.isSome) :
    ∃ bd, initBugzillaData query_file plot_style true (.ok (.list entries))
        (.error ()) = .ok bd ∧
      bd.creds = none ∧
      computeBugs api bd =
        ([], .error (.bugzillaError "No creds available to log into Bugzilla")) := by
  by_cases hlen : entries.length > 1
  · obtain ⟨qs, hm⟩ := exists_extractQueries hq
    refine ⟨⟨query_file, plot_style, true, none, some qs, none, none⟩, ?_, rfl, rfl⟩
    simp only [initBugzillaData]
    simp [hlen, hm]
  · cases entries with
    | nil => exact absurd rfl hne
    | cons e t =>
      have ht : t = [] := by
        cases t with
        | nil => rfl
        | cons x xs =>
          exfalso
          exact hlen (by simp [List.length_cons])
      subst ht
      exact ⟨⟨query_file, plot_style, true, e.query, none, none, none⟩, rfl, rfl, rfl⟩

/-- C6 witness: a concrete single-entry query file with an unreadable
credential file and login required. -/
theorem init_missing_credentials_fetch_aborts_witness :
    ∃ bd, initBugzillaData "conf/query.yaml" "component" true
        (.ok (.list [⟨some []⟩])) (.error ()) = .ok bd ∧
      bd.creds = none ∧
      computeBugs okApi bd =
        ([], .error (.bugzillaError "No creds available to log into Bugzilla")) :=
  init_missing_credentials_fetch_aborts "conf/query.yaml" "component"
    [⟨some []⟩] okApi (by decide) (by decide)

end ConstructionTheorems

section MultiQueryTheorems

theorem runQueriesLoop_all_ok (api : BzApi) (f : Query → List Bug)
    (qs : List Query) (h : ∀ q ∈ qs, api.query (some q) = .ok (f q)) :
    runQueriesLoop api qs =
      (qs.flatMap fun q => [Event.announce q, Event.queryCall (some q)],
        .ok (qs.flatMap f)) := by
  induction qs with
  | nil => rfl
  | cons q t ih =>
    rw [runQueriesLoop, h q (List.mem_cons_self q t),
      ih (fun x hx => h x (List.mem_cons_of_mem q hx))]
    simp

/-- C7: in multi-query mode (without login), the queries run one per
entry in declaration order, each announced (printed) immediately before
its own execution, and the per-query result lists are concatenated in
that same order without de-duplication. -/
theorem multi_query_declaration_order (api : BzApi) (bd : BZState)
    (q0 : Query) (qs : List Query) (f : Query → List Bug)
    (hqs : bd.queries = some (q0 :: qs))
    (hlogin : bd.login_required = false)
    (hok : ∀ q ∈ q0 :: qs, api.query (some q) = .ok (f q)) :
    computeBugs api bd =
      ((q0 :: qs).flatMap fun q => [Event.announce q, Event.queryCall (some q)],
        .ok ((q0 :: qs).flatMap f)) := by
  rw [computeBugs]
  simp only [hlogin, Bool.false_eq_true, if_false]
  rw [runQueryBody, hqs]
  exact runQueriesLoop_all_ok api f (q0 :: qs) hok

/-- C7 witness: two identical queries are both announced and executed in
order and their result lists are concatenated without de-duplication. -/
theorem multi_query_declaration_order_witness :
    computeBugs okApi
        { anonState with
          queries := some [[("product", ["p1"])], [("product", ["p1"])]],
          query := none } =
      ([Event.announce [("product", ["p1"])],
        Event.queryCall (some [("product", ["p1"])]),
        Event.announce [("product", ["p1"])],
        Event.queryCall (some [("product", ["p1"])])],
        .ok [Bug.mk fun _ => "component-a", Bug.mk fun _ => "component-a"]) :=
  multi_query_declaration_order okApi
    { anonState with
      queries := some [[("product", ["p1"])], [("product", ["p1"])]],
      query := none }
    [("product", ["p1"])] [[("product", ["p1"])]]
    (fun _ => [Bug.mk fun _ => "component-a"]) rfl rfl (fun _ _ => rfl)

end MultiQueryTheorems

section TitleProductTheorems

/-- C8: for queries with status filters `["NEW", "ASSIGNED"]` and
`["NEW"]` the status list embedded in the title is `["NEW", "ASSIGNED"]`;
a single query with product `["Widget"]` yields the label `"Widget"`;
with no product key the label is empty and the generated chart carries no
anchored product text box. -/
theorem title_product_derivation :
    titleStatus statusQueriesState = .ok ["NEW", "ASSIGNED"] ∧
    product productQueryState = .ok "Widget" ∧
    product noProductQueryState = .ok "" ∧
    generate_plot noProductQueryState [] false =
      .ok { xvals := [], heights := [], xtickLabels := [],
            ylabel := "BZ Count",
            title := " BZ\x27s sorted by Component",
            anchored_text := none, savedTo := none } :=
  ⟨rfl, rfl, rfl, rfl⟩

end TitleProductTheorems

section CliTheorems

/-- C9: with `--noplot` set, `main` prints the textual report and emits
no plot action — nothing is rendered or saved — whatever `--output`,
`--report` and `--save` are. -/
theorem noplot_prints_report_and_skips_plot (output report save : Bool) :
    MainAction.printOutput ∈ mainActions output true report save ∧
    ∀ s, MainAction.generatePlot s ∉ mainActions output true report save := by
  cases output <;> cases report <;> cases save <;> exact ⟨by decide, by decide⟩

end CliTheorems

end BZData
